import Mathlib

/-
Verification of the docchat document question-answering assistant
(src/main.py) against its specification.

The program is a thin orchestration layer over third-party libraries
(document loaders, text splitter, embeddings, vector store, QA chain,
HTTP client, prompt toolkit).  The shallow embedding below translates
the control flow of src/main.py into pure Lean functions; each call into
a third-party library is modelled as an explicit input (a function
argument or an `Except` outcome) so that every code path of main.py is
represented, including the exception paths.
-/

namespace DocChat

/-- A loaded document as produced by the langchain loaders: raw text plus
optional source-path metadata (`doc.metadata.get("source", ...)` in
`answer_question` treats the source key as possibly absent). -/
structure Document where
  page_content : String
  source : Option String
deriving DecidableEq

/-- One entry of the deduplicated source list returned by
`answer_question`: `{"source": source, "content": content}`. -/
structure SourceEntry where
  source : String
  content : String
deriving DecidableEq

/-- The mutable state of `DocumentChatbot` that the claims depend on:
`self.vector_db`, which is `None` after `__init__` and is assigned the
built store by `load_documents`.  The store itself is modelled as the
list of indexed chunks. -/
structure ChatbotState where
  vector_db : Option (List Document)
deriving DecidableEq

/-- One directory entry seen by the `load_documents` loop: its file name,
its lowercased extension (`file_path.suffix.lower()`), and the outcome of
calling the selected third-party loader on it (`loader.load()` either
returns documents or raises, modelled by `Except`). -/
structure FileEntry where
  name : String
  suffix : String
  outcome : Except String (List Document)

/-- The extensions with a dedicated loader in the `loaders` dict of
`load_documents`. -/
def loaders_exts : List String := [".pdf", ".docx", ".xlsx", ".doc", ".xls"]

/-- One iteration of the `for file_path in Path(folder_path).glob(...)`
loop: documents contributed by this file and the console line printed for
it.  A loader exception is caught; the file contributes no documents and
an error line is printed (`except Exception as e` branch). -/
def loadOne (f : FileEntry) : List Document × String :=
  match f.outcome with
  | Except.ok docs =>
      if loaders_exts.contains f.suffix then
        (docs, "✓ " ++ f.name)
      else
        (docs, "? " ++ f.name ++ " (generic format)")
  | Except.error e => ([], "✗ " ++ f.name ++ " (error: " ++ e ++ ")")

/-- The whole loading loop of `load_documents`: accumulated documents and
console lines, in file order. -/
def processFiles : List FileEntry → List Document × List String
  | [] => ([], [])
  | f :: fs =>
      ((loadOne f).1 ++ (processFiles fs).1, (loadOne f).2 :: (processFiles fs).2)

/-- The failures `load_documents` can raise (all are `ValueError` in the
Python source; the spec taxonomy names them FolderNotFound, EmptyCorpus,
and an indexing failure escaping from the vector-store build). -/
inductive ChatbotError where
  | folderNotFound (path : String)
  | emptyCorpus
  | indexingError (msg : String)
deriving DecidableEq

/-- The message carried by each `ChatbotError`, as in the Python
`ValueError` strings. -/
def errorMessage : ChatbotError → String
  | ChatbotError.folderNotFound p => "Folder not found: " ++ p
  | ChatbotError.emptyCorpus => "No valid documents found!"
  | ChatbotError.indexingError m => m

/-- `DocumentChatbot.load_documents`.  Inputs model the environment:
`path_found` is `Path(folder_path).exists()`, `files` the directory
listing with each per-file loader outcome, `split_documents` the
third-party text splitter, and `from_documents` the vector-store build
(`Chroma.from_documents`), which may raise.  Returns the new state, the
console lines printed, and the error raised (if any).  On any error the
returned state is the input state, since the Python exception propagates
before `self.vector_db` is assigned. -/
def load_documents (st : ChatbotState) (folder_path : String) (path_found : Bool)
    (files : List FileEntry)
    (split_documents : List Document → List Document)
    (from_documents : List Document → Except String (List Document)) :
    ChatbotState × List String × Option ChatbotError :=
  if path_found then
    if (processFiles files).1 = [] then
      (st, (processFiles files).2, some ChatbotError.emptyCorpus)
    else
      match from_documents (split_documents (processFiles files).1) with
      | Except.ok db =>
          ({ st with vector_db := some db },
            (processFiles files).2 ++ ["✅ Documents indexed successfully"], none)
      | Except.error e =>
          (st, (processFiles files).2, some (ChatbotError.indexingError e))
  else
    (st, [], some (ChatbotError.folderNotFound folder_path))

/-- The content preview built in `answer_question`:
`doc.page_content[:250] + ("..." if len(doc.page_content) > 250 else "")`. -/
def preview (s : String) : String :=
  s.take 250 ++ (if 250 < s.length then "..." else "")

/-- The dictionary key used for deduplication:
`doc.metadata.get("source", "Unknown source")`. -/
def docKey (d : Document) : String := d.source.getD "Unknown source"

/-- The value stored for a retrieved document in the `unique_sources`
dictionary. -/
def entryOf (d : Document) : SourceEntry :=
  { source := docKey d, content := preview d.page_content }

/-- One assignment `unique_sources[source] = {...}` on the dictionary,
modelled on its value list: an existing key keeps its position and gets
the new value, a new key is appended (Python dict insertion order). -/
def dedupInsert (m : List SourceEntry) (e : SourceEntry) : List SourceEntry :=
  if e.source ∈ m.map SourceEntry.source then
    m.map (fun x => if x.source = e.source then e else x)
  else
    m ++ [e]

/-- The `unique_sources` dictionary built from the retrieved
`source_documents`, returned as `list(unique_sources.values())`. -/
def unique_sources (docs : List Document) : List SourceEntry :=
  docs.foldl (fun m d => dedupInsert m (entryOf d)) []

/-- `DocumentChatbot.answer_question`.  `qa_chain` models the whole
retrieval/generation path inside the `try` block (retriever construction,
chain construction, and `qa_chain.invoke`), mapping the query string to
either the result text plus retrieved source documents, or an exception.
Returns `((answer text, sources), console lines printed)`. -/
def answer_question (st : ChatbotState) (question : String)
    (qa_chain : String → Except String (String × List Document)) :
    (String × List SourceEntry) × List String :=
  match st.vector_db with
  | none => (("Documents not loaded properly.", []), [])
  | some _ =>
      match qa_chain ("Responda em português: " ++ question) with
      | Except.ok r => ((r.1, unique_sources r.2), [])
      | Except.error e =>
          (("Sorry, I encountered an error processing your question.", []),
            ["Error processing question: " ++ e])

/-- Outcome of `requests.get("http://localhost:11434", timeout=5)`: either
a response with a status code, or an exception (timeout, connection
refused, ...). -/
inductive HttpResult where
  | response (status_code : Nat)
  | exn (msg : String)
deriving DecidableEq

/-- `check_ollama`: `try: return response.status_code == 200 except:
return False`. -/
def check_ollama (r : HttpResult) : Bool :=
  match r with
  | HttpResult.response status_code => status_code == 200
  | HttpResult.exn _ => false

/-- Python `str.lower()` restricted to the ASCII case mapping, applied
character by character. -/
def strLower (s : String) : String := String.mk (s.data.map Char.toLower)

/-- The exit test of the chat loop:
`user_input.lower() in ("exit", "quit", "sair")`. -/
def isExitCommand (s : String) : Bool :=
  strLower s == "exit" || strLower s == "quit" || strLower s == "sair"

/-- Case-insensitive string equality (two strings are case variants of
each other). -/
def ciEq (a b : String) : Prop := strLower a = strLower b

instance (a b : String) : Decidable (ciEq a b) := by
  unfold ciEq
  infer_instance

/-- One interaction with the prompt: a typed line, or a manual interrupt
(`KeyboardInterrupt`). -/
inductive UserInput where
  | line (s : String)
  | interrupt
deriving DecidableEq

/-- Observable events of a run of `main`, in console order.  Marker
events record which stages were reached. -/
inductive Event where
  | banner
  | ollamaInstructions
  | modelsLoaded
  | loadingDocs
  | consoleLine (s : String)
  | readyMessage
  | chatBanner
  | askedQuestion (q : String)
  | answerPanel (a : String)
  | sourcesPanel (srcs : List SourceEntry)
  | interruptShutdown
  | criticalFailure (e : String)
  | shutdownComplete
deriving DecidableEq

/-- The `while True` chat loop of `main`, run over a list of prompt
interactions.  An exit keyword breaks out of the loop before
`answer_question` is called; an interrupt prints the distinct interrupt
message and breaks; any other line is answered and displayed (the sources
panel only when the sources list is non-empty). -/
def runChat (st : ChatbotState)
    (qa_chain : String → Except String (String × List Document)) :
    List UserInput → List Event
  | [] => []
  | UserInput.interrupt :: _ => [Event.interruptShutdown]
  | UserInput.line s :: rest =>
      if isExitCommand s then []
      else
        Event.askedQuestion s ::
          ((answer_question st s qa_chain).2.map Event.consoleLine ++
            Event.answerPanel (answer_question st s qa_chain).1.1 ::
              ((if (answer_question st s qa_chain).1.2 = [] then []
                else [Event.sourcesPanel (answer_question st s qa_chain).1.2]) ++
                runChat st qa_chain rest))

/-- The `main` function.  `http` is the health-check outcome,
`init_result` the outcome of `DocumentChatbot.__init__` (which may
raise), and the remaining arguments model the environment of
`load_documents` and the chat loop.  When the health check fails, main
prints the instructional message and returns before the `try` block, so
no further event occurs; otherwise setup failures fall into the outer
`except` and every path through the `try` ends in the `finally`
shutdown message. -/
def main (http : HttpResult) (init_result : Except String Unit)
    (path_found : Bool) (files : List FileEntry)
    (split_documents : List Document → List Document)
    (from_documents : List Document → Except String (List Document))
    (qa_chain : String → Except String (String × List Document))
    (inputs : List UserInput) : List Event :=
  Event.banner ::
    (if check_ollama http then
      match init_result with
      | Except.error e => [Event.criticalFailure e, Event.shutdownComplete]
      | Except.ok _ =>
          Event.modelsLoaded :: Event.loadingDocs ::
            ((load_documents ⟨none⟩ "./documents" path_found files split_documents
                from_documents).2.1.map Event.consoleLine ++
              (match (load_documents ⟨none⟩ "./documents" path_found files split_documents
                  from_documents).2.2 with
                | some err =>
                    [Event.criticalFailure (errorMessage err), Event.shutdownComplete]
                | none =>
                    Event.readyMessage :: Event.chatBanner ::
                      (runChat (load_documents ⟨none⟩ "./documents" path_found files
                          split_documents from_documents).1 qa_chain inputs ++
                        [Event.shutdownComplete])))
    else
      [Event.ollamaInstructions])

/-! Helper lemmas shared by the claim theorems. -/

lemma answer_question_of_none (st : ChatbotState) (h : st.vector_db = none)
    (question : String) (qa_chain : String → Except String (String × List Document)) :
    answer_question st question qa_chain = (("Documents not loaded properly.", []), []) := by
  simp [answer_question, h]

/-- C2: calling `answer_question` before any successful `load_documents`
(vector store still uninitialized) returns the fixed sentinel answer with
an empty sources list; no exception path exists. -/
theorem answer_question_uninitialized (st : ChatbotState) (h : st.vector_db = none)
    (question : String) (qa_chain : String → Except String (String × List Document)) :
    answer_question st question qa_chain = (("Documents not loaded properly.", []), []) :=
  answer_question_of_none st h question qa_chain

/-- C2 witness: the sentinel at a concrete uninitialized state and
question. -/
theorem answer_question_uninitialized_witness :
    answer_question ⟨none⟩ "What?" (fun _ => Except.error "boom") =
      (("Documents not loaded properly.", []), []) :=
  answer_question_uninitialized ⟨none⟩ rfl "What?" (fun _ => Except.error "boom")

/-- C1: with an initialized vector store, a failure anywhere on the
retrieval/generation path is caught: the error is reported on the console
and the graceful failure answer with empty sources is returned, never an
exception. -/
theorem answer_question_catches_errors (st : ChatbotState) (db : List Document)
    (hdb : st.vector_db = some db) (question e : String)
    (qa_chain : String → Except String (String × List Document))
    (hqa : qa_chain ("Responda em português: " ++ question) = Except.error e) :
    answer_question st question qa_chain =
      (("Sorry, I encountered an error processing your question.", []),
        ["Error processing question: " ++ e]) := by
  simp [answer_question, hdb, hqa]

/-- C1 witness: the graceful failure at a concrete state whose QA chain
raises. -/
theorem answer_question_catches_errors_witness :
    answer_question ⟨some []⟩ "What?" (fun _ => Except.error "boom") =
      (("Sorry, I encountered an error processing your question.", []),
        ["Error processing question: " ++ "boom"]) :=
  answer_question_catches_errors ⟨some []⟩ [] rfl "What?" "boom"
    (fun _ => Except.error "boom") rfl

/-- C5: on a nonexistent folder, `load_documents` fails with the
folder-not-found error immediately: the state is unchanged, no per-file
console line is printed, and the result does not depend on the directory
contents, the splitter, or the indexer (no file is processed, no indexing
occurs). -/
theorem load_documents_folder_not_found (st : ChatbotState) (folder_path : String)
    (files : List FileEntry)
    (split_documents : List Document → List Document)
    (from_documents : List Document → Except String (List Document)) :
    load_documents st folder_path false files split_documents from_documents =
      (st, [], some (ChatbotError.folderNotFound folder_path)) ∧
    ∀ files2 split2 from2,
      load_documents st folder_path false files split_documents from_documents =
        load_documents st folder_path false files2 split2 from2 :=
  ⟨rfl, fun _ _ _ => rfl⟩

/-- C10: `check_ollama` is total (it is a function on every possible HTTP
outcome, including every exception) and returns `true` exactly on a
response with status code 200; every exception yields `false`. -/
theorem check_ollama_total (r : HttpResult) :
    (check_ollama r = true ↔ r = HttpResult.response 200) ∧
    ∀ m, check_ollama (HttpResult.exn m) = false := by
  constructor
  · cases r with
    | response c => simp [check_ollama]
    | exn m => simp [check_ollama]
  · intro m
    rfl

/-- C10 witness: concrete evaluations on a 200 response, a non-200
response, and an exception. -/
theorem check_ollama_total_witness :
    check_ollama (HttpResult.response 200) = true ∧
    check_ollama (HttpResult.response 404) = false ∧
    check_ollama (HttpResult.exn "timeout") = false := by
  refine ⟨(check_ollama_total (HttpResult.response 200)).1.mpr rfl, ?_,
    (check_ollama_total (HttpResult.response 200)).2 "timeout"⟩
  decide

/-! Computation lemmas for the four branches of `load_documents`. -/

lemma load_documents_spec_false (st : ChatbotState) (folder_path : String)
    (files : List FileEntry) (split_documents : List Document → List Document)
    (from_documents : List Document → Except String (List Document)) :
    load_documents st folder_path false files split_documents from_documents =
      (st, [], some (ChatbotError.folderNotFound folder_path)) := rfl

lemma load_documents_spec_empty (st : ChatbotState) (folder_path : String)
    (files : List FileEntry) (split_documents : List Document → List Document)
    (from_documents : List Document → Except String (List Document))
    (hc : (processFiles files).1 = []) :
    load_documents st folder_path true files split_documents from_documents =
      (st, (processFiles files).2, some ChatbotError.emptyCorpus) := by
  simp [load_documents, hc]

lemma load_documents_spec_ok (st : ChatbotState) (folder_path : String)
    (files : List FileEntry) (split_documents : List Document → List Document)
    (from_documents : List Document → Except String (List Document))
    (db : List Document)
    (hc : ¬ (processFiles files).1 = [])
    (hfd : from_documents (split_documents (processFiles files).1) = Except.ok db) :
    load_documents st folder_path true files split_documents from_documents =
      ({ st with vector_db := some db },
        (processFiles files).2 ++ ["✅ Documents indexed successfully"], none) := by
  simp [load_documents, hc, hfd]

lemma load_documents_spec_err (st : ChatbotState) (folder_path : String)
    (files : List FileEntry) (split_documents : List Document → List Document)
    (from_documents : List Document → Except String (List Document))
    (e : String)
    (hc : ¬ (processFiles files).1 = [])
    (hfd : from_documents (split_documents (processFiles files).1) = Except.error e) :
    load_documents st folder_path true files split_documents from_documents =
      (st, (processFiles files).2, some (ChatbotError.indexingError e)) := by
  simp [load_documents, hc, hfd]

/-- C4: on an existing folder that yields zero documents, `load_documents`
fails with the empty-corpus error, the state is unchanged, and no indexing
is performed (the result does not depend on the indexer at all). -/
theorem load_documents_empty_corpus (st : ChatbotState) (folder_path : String)
    (files : List FileEntry)
    (split_documents : List Document → List Document)
    (from_documents : List Document → Except String (List Document))
    (h : (processFiles files).1 = []) :
    load_documents st folder_path true files split_documents from_documents =
      (st, (processFiles files).2, some ChatbotError.emptyCorpus) ∧
    ∀ from2, load_documents st folder_path true files split_documents from_documents =
      load_documents st folder_path true files split_documents from2 := by
  refine ⟨load_documents_spec_empty st folder_path files split_documents from_documents h, ?_⟩
  intro from2
  rw [load_documents_spec_empty st folder_path files split_documents from_documents h,
    load_documents_spec_empty st folder_path files split_documents from2 h]

/-- C4 witness: a folder with a single file whose loader raises produces
zero documents and the empty-corpus failure, with the state unchanged. -/
theorem load_documents_empty_corpus_witness :
    load_documents ⟨none⟩ "./documents" true [⟨"a.txt", ".txt", Except.error "boom"⟩]
        id (fun d => Except.ok d) =
      (⟨none⟩, (processFiles [⟨"a.txt", ".txt", Except.error "boom"⟩]).2,
        some ChatbotError.emptyCorpus) :=
  (load_documents_empty_corpus ⟨none⟩ "./documents" [⟨"a.txt", ".txt", Except.error "boom"⟩]
    id (fun d => Except.ok d) rfl).1

lemma processFiles_append (l1 l2 : List FileEntry) :
    processFiles (l1 ++ l2) =
      ((processFiles l1).1 ++ (processFiles l2).1,
        (processFiles l1).2 ++ (processFiles l2).2) := by
  induction l1 with
  | nil => simp [processFiles]
  | cons f fs ih => simp [processFiles, ih]

lemma load_documents_congr_docs (st : ChatbotState) (folder_path : String)
    (files1 files2 : List FileEntry)
    (split_documents : List Document → List Document)
    (from_documents : List Document → Except String (List Document))
    (h : (processFiles files1).1 = (processFiles files2).1) :
    (load_documents st folder_path true files1 split_documents from_documents).1 =
      (load_documents st folder_path true files2 split_documents from_documents).1 ∧
    (load_documents st folder_path true files1 split_documents from_documents).2.2 =
      (load_documents st folder_path true files2 split_documents from_documents).2.2 := by
  by_cases hc : (processFiles files2).1 = []
  · rw [load_documents_spec_empty st folder_path files1 split_documents from_documents
      (h.trans hc),
      load_documents_spec_empty st folder_path files2 split_documents from_documents hc]
    exact ⟨rfl, rfl⟩
  · have hc1 : ¬ (processFiles files1).1 = [] := by
      rw [h]
      exact hc
    cases hfd : from_documents (split_documents (processFiles files2).1) with
    | ok db =>
        rw [load_documents_spec_ok st folder_path files1 split_documents from_documents db hc1
          (by rw [h]; exact hfd),
          load_documents_spec_ok st folder_path files2 split_documents from_documents db hc hfd]
        exact ⟨rfl, rfl⟩
    | error e =>
        rw [load_documents_spec_err st folder_path files1 split_documents from_documents e hc1
          (by rw [h]; exact hfd),
          load_documents_spec_err st folder_path files2 split_documents from_documents e hc hfd]
        exact ⟨rfl, rfl⟩

/-- C6: a single file whose loader raises is caught, reported on the
console with its own failure line, and skipped: the documents produced,
the resulting state, and the load outcome are the same as if the file
were absent, and every other file is still processed. -/
theorem load_documents_skips_failing_file (pre post : List FileEntry) (f : FileEntry)
    (e : String) (hf : f.outcome = Except.error e) :
    (processFiles (pre ++ f :: post)).1 = (processFiles (pre ++ post)).1 ∧
    (processFiles (pre ++ f :: post)).2 =
      (processFiles pre).2 ++ ("✗ " ++ f.name ++ " (error: " ++ e ++ ")")
        :: (processFiles post).2 ∧
    ("✗ " ++ f.name ++ " (error: " ++ e ++ ")") ∈ (processFiles (pre ++ f :: post)).2 ∧
    ∀ st folder_path split_documents from_documents,
      (load_documents st folder_path true (pre ++ f :: post) split_documents
          from_documents).1 =
        (load_documents st folder_path true (pre ++ post) split_documents
          from_documents).1 ∧
      (load_documents st folder_path true (pre ++ f :: post) split_documents
          from_documents).2.2 =
        (load_documents st folder_path true (pre ++ post) split_documents
          from_documents).2.2 := by
  have hl : loadOne f = ([], "✗ " ++ f.name ++ " (error: " ++ e ++ ")") := by
    simp [loadOne, hf]
  have h1 : (processFiles (pre ++ f :: post)).1 = (processFiles (pre ++ post)).1 := by
    simp [processFiles_append, processFiles, hl]
  have h2 : (processFiles (pre ++ f :: post)).2 =
      (processFiles pre).2 ++ ("✗ " ++ f.name ++ " (error: " ++ e ++ ")")
        :: (processFiles post).2 := by
    simp [processFiles_append, processFiles, hl]
  refine ⟨h1, h2, ?_, ?_⟩
  · rw [h2]
    simp
  · intro st folder_path split_documents from_documents
    exact load_documents_congr_docs st folder_path (pre ++ f :: post) (pre ++ post)
      split_documents from_documents h1

/-- C6 witness: a failing file next to a good one is reported and skipped,
and the documents produced are those of the good file alone. -/
theorem load_documents_skips_failing_file_witness :
    (processFiles [⟨"bad.pdf", ".pdf", Except.error "boom"⟩,
        ⟨"ok.txt", ".txt", Except.ok [⟨"text", some "ok.txt"⟩]⟩]).1 =
      (processFiles [⟨"ok.txt", ".txt", Except.ok [⟨"text", some "ok.txt"⟩]⟩]).1 ∧
    ("✗ " ++ "bad.pdf" ++ " (error: " ++ "boom" ++ ")") ∈
      (processFiles [⟨"bad.pdf", ".pdf", Except.error "boom"⟩,
        ⟨"ok.txt", ".txt", Except.ok [⟨"text", some "ok.txt"⟩]⟩]).2 := by
  have h := load_documents_skips_failing_file []
    [⟨"ok.txt", ".txt", Except.ok [⟨"text", some "ok.txt"⟩]⟩]
    ⟨"bad.pdf", ".pdf", Except.error "boom"⟩ "boom" rfl
  exact ⟨h.1, h.2.2.1⟩

/-- C9: initialization is atomic.  Starting from the uninitialized state,
any failing `load_documents` run leaves `vector_db` at `none`, so every
subsequent `answer_question` still returns the uninitialized sentinel;
conversely a non-failing run means the vector-store build on the chunked
documents succeeded and its result is exactly what was assigned. -/
theorem load_documents_atomic (folder_path : String) (path_found : Bool)
    (files : List FileEntry)
    (split_documents : List Document → List Document)
    (from_documents : List Document → Except String (List Document)) :
    (∀ err,
      (load_documents ⟨none⟩ folder_path path_found files split_documents
          from_documents).2.2 = some err →
        (load_documents ⟨none⟩ folder_path path_found files split_documents
            from_documents).1.vector_db = none ∧
        ∀ question qa_chain,
          answer_question (load_documents ⟨none⟩ folder_path path_found files
              split_documents from_documents).1 question qa_chain =
            (("Documents not loaded properly.", []), [])) ∧
    ((load_documents ⟨none⟩ folder_path path_found files split_documents
        from_documents).2.2 = none →
      ∃ db, from_documents (split_documents (processFiles files).1) = Except.ok db ∧
        (load_documents ⟨none⟩ folder_path path_found files split_documents
            from_documents).1.vector_db = some db) := by
  cases path_found with
  | false =>
      rw [load_documents_spec_false]
      refine ⟨?_, ?_⟩
      · intro err _
        exact ⟨rfl, fun question qa_chain => answer_question_of_none _ rfl question qa_chain⟩
      · intro h
        cases h
  | true =>
      by_cases hc : (processFiles files).1 = []
      · rw [load_documents_spec_empty _ folder_path files split_documents from_documents hc]
        refine ⟨?_, ?_⟩
        · intro err _
          exact ⟨rfl, fun question qa_chain => answer_question_of_none _ rfl question qa_chain⟩
        · intro h
          cases h
      · cases hfd : from_documents (split_documents (processFiles files).1) with
        | ok db =>
            rw [load_documents_spec_ok _ folder_path files split_documents from_documents db
              hc hfd]
            refine ⟨?_, ?_⟩
            · intro err herr
              cases herr
            · intro _
              exact ⟨db, hfd.symm ▸ rfl, rfl⟩
        | error e =>
            rw [load_documents_spec_err _ folder_path files split_documents from_documents e
              hc hfd]
            refine ⟨?_, ?_⟩
            · intro err _
              exact ⟨rfl, fun question qa_chain =>
                answer_question_of_none _ rfl question qa_chain⟩
            · intro h
              cases h

/-- C9 witness: after a failing load (nonexistent folder) the store is
still uninitialized and a question gets the sentinel answer. -/
theorem load_documents_atomic_witness :
    (load_documents ⟨none⟩ "./documents" false [] id
        (fun d => Except.ok d)).1.vector_db = none ∧
    answer_question (load_documents ⟨none⟩ "./documents" false [] id
        (fun d => Except.ok d)).1 "What?" (fun _ => Except.error "boom") =
      (("Documents not loaded properly.", []), []) := by
  have h := (load_documents_atomic "./documents" false [] id (fun d => Except.ok d)).1
    (ChatbotError.folderNotFound "./documents") rfl
  exact ⟨h.1, h.2 "What?" (fun _ => Except.error "boom")⟩

/-- C7: when the startup health check fails (non-success status or any
exception), `main` prints the instructional message and terminates: the
whole trace is the banner plus the instruction, and neither document
loading nor the chat loop is ever reached. -/
theorem main_aborts_without_ollama (http : HttpResult) (h : check_ollama http = false)
    (init_result : Except String Unit) (path_found : Bool) (files : List FileEntry)
    (split_documents : List Document → List Document)
    (from_documents : List Document → Except String (List Document))
    (qa_chain : String → Except String (String × List Document))
    (inputs : List UserInput) :
    main http init_result path_found files split_documents from_documents qa_chain inputs =
      [Event.banner, Event.ollamaInstructions] ∧
    Event.loadingDocs ∉
      main http init_result path_found files split_documents from_documents qa_chain inputs ∧
    Event.chatBanner ∉
      main http init_result path_found files split_documents from_documents qa_chain inputs ∧
    ∀ q, Event.askedQuestion q ∉
      main http init_result path_found files split_documents from_documents qa_chain inputs := by
  have hm : main http init_result path_found files split_documents from_documents qa_chain
      inputs = [Event.banner, Event.ollamaInstructions] := by
    simp [main, h]
  refine ⟨hm, ?_, ?_, ?_⟩
  · rw [hm]
    simp
  · rw [hm]
    simp
  · intro q
    rw [hm]
    simp

/-- C7 witness: a timed-out health check at concrete inputs yields exactly
the banner and the instruction, with no document-loading event. -/
theorem main_aborts_without_ollama_witness :
    main (HttpResult.exn "timeout") (Except.ok ()) true [] id (fun d => Except.ok d)
        (fun _ => Except.error "no llm") [] =
      [Event.banner, Event.ollamaInstructions] ∧
    Event.loadingDocs ∉ main (HttpResult.exn "timeout") (Except.ok ()) true [] id
        (fun d => Except.ok d) (fun _ => Except.error "no llm") [] := by
  have h := main_aborts_without_ollama (HttpResult.exn "timeout") rfl (Except.ok ()) true []
    id (fun d => Except.ok d) (fun _ => Except.error "no llm") []
  exact ⟨h.1, h.2.1⟩

lemma getLast_mem_cons (a : Event) (l : List Event)
    (h : l.getLast? = some Event.shutdownComplete) :
    (a :: l).getLast? = some Event.shutdownComplete := by
  cases l with
  | nil => cases h
  | cons b m =>
      rw [List.getLast?_cons_cons]
      exact h

lemma getLast_append_some (l1 l2 : List Event)
    (h : l2.getLast? = some Event.shutdownComplete) :
    (l1 ++ l2).getLast? = some Event.shutdownComplete := by
  rw [List.getLast?_append, h]
  rfl

/-- C8: the terminating inputs of the chat loop are exactly the
case-insensitive variants of "exit", "quit" and "sair"; such a line ends
the loop at once, producing no event (in particular it is never forwarded
to `answer_question`); and whenever the health check passed, the run ends
with the shutdown message. -/
theorem chat_exit_keywords :
    (∀ s, isExitCommand s = true ↔ (ciEq s "exit" ∨ ciEq s "quit" ∨ ciEq s "sair")) ∧
    (∀ s st qa_chain rest, isExitCommand s = true →
      runChat st qa_chain (UserInput.line s :: rest) = []) ∧
    (∀ http path_found files split_documents from_documents qa_chain inputs,
      check_ollama http = true →
      (main http (Except.ok ()) path_found files split_documents from_documents qa_chain
          inputs).getLast? = some Event.shutdownComplete) := by
  refine ⟨?_, ?_, ?_⟩
  · intro s
    have h1 : strLower "exit" = "exit" := rfl
    have h2 : strLower "quit" = "quit" := rfl
    have h3 : strLower "sair" = "sair" := rfl
    simp [isExitCommand, ciEq, h1, h2, h3]
    tauto
  · intro s st qa_chain rest h
    simp [runChat, h]
  · intro http path_found files split_documents from_documents qa_chain inputs hok
    simp only [main, hok, if_true]
    apply getLast_mem_cons
    apply getLast_mem_cons
    apply getLast_mem_cons
    apply getLast_append_some
    cases herr : (load_documents ⟨none⟩ "./documents" path_found files split_documents
        from_documents).2.2 with
    | some err => rfl
    | none =>
        apply getLast_mem_cons
        apply getLast_mem_cons
        exact List.getLast?_concat _

/-- C8 witness: a concrete case variant of an exit keyword terminates the
loop with no event, and is recognized as a case variant. -/
theorem chat_exit_keywords_witness :
    isExitCommand "QuIt" = true ∧
    runChat ⟨none⟩ (fun _ => Except.error "boom") [UserInput.line "QuIt"] = [] := by
  have h1 : isExitCommand "QuIt" = true :=
    (chat_exit_keywords.1 "QuIt").mpr (Or.inr (Or.inl rfl))
  exact ⟨h1, chat_exit_keywords.2.1 "QuIt" ⟨none⟩ (fun _ => Except.error "boom") [] h1⟩

/-! Lemmas on the `unique_sources` dictionary for the deduplication
claim. -/

lemma dedupInsert_map_source (m : List SourceEntry) (e : SourceEntry) :
    (dedupInsert m e).map SourceEntry.source =
      if e.source ∈ m.map SourceEntry.source then m.map SourceEntry.source
      else m.map SourceEntry.source ++ [e.source] := by
  unfold dedupInsert
  by_cases h : e.source ∈ m.map SourceEntry.source
  · rw [if_pos h, if_pos h, List.map_map]
    apply List.map_congr_left
    intro x _
    by_cases hxe : x.source = e.source
    · simp [hxe]
    · simp [hxe]
  · rw [if_neg h, if_neg h, List.map_append]
    rfl

lemma mem_dedupInsert (m : List SourceEntry) (e a : SourceEntry)
    (h : a ∈ dedupInsert m e) : a ∈ m ∨ a = e := by
  unfold dedupInsert at h
  by_cases hc : e.source ∈ m.map SourceEntry.source
  · rw [if_pos hc] at h
    obtain ⟨x, hx, hxa⟩ := List.mem_map.mp h
    by_cases hxe : x.source = e.source
    · right
      rw [← hxa]
      simp [hxe]
    · left
      rw [← hxa]
      simpa [hxe] using hx
  · rw [if_neg hc] at h
    rcases List.mem_append.mp h with h1 | h2
    · left
      exact h1
    · right
      simpa using h2

lemma source_mem_dedupInsert (m : List SourceEntry) (e : SourceEntry) :
    e.source ∈ (dedupInsert m e).map SourceEntry.source := by
  rw [dedupInsert_map_source]
  by_cases h : e.source ∈ m.map SourceEntry.source
  · rwa [if_pos h]
  · rw [if_neg h]
    simp

lemma foldl_dedup_nodup (docs : List Document) (m : List SourceEntry)
    (hm : (m.map SourceEntry.source).Nodup) :
    ((docs.foldl (fun m d => dedupInsert m (entryOf d)) m).map SourceEntry.source).Nodup := by
  induction docs generalizing m with
  | nil => exact hm
  | cons d ds ih =>
      apply ih
      rw [dedupInsert_map_source]
      by_cases h : (entryOf d).source ∈ m.map SourceEntry.source
      · rwa [if_pos h]
      · rw [if_neg h]
        simp [List.nodup_append, hm, h]

lemma foldl_dedup_mem_mono (docs : List Document) (m : List SourceEntry) (s : String)
    (hs : s ∈ m.map SourceEntry.source) :
    s ∈ (docs.foldl (fun m d => dedupInsert m (entryOf d)) m).map SourceEntry.source := by
  induction docs generalizing m with
  | nil => exact hs
  | cons d ds ih =>
      apply ih
      rw [dedupInsert_map_source]
      by_cases h : (entryOf d).source ∈ m.map SourceEntry.source
      · rwa [if_pos h]
      · rw [if_neg h]
        exact List.mem_append_left _ hs

lemma foldl_dedup_key_mem (docs : List Document) (m : List SourceEntry)
    (d : Document) (hd : d ∈ docs) :
    docKey d ∈ ((docs.foldl (fun m d => dedupInsert m (entryOf d)) m).map
      SourceEntry.source) := by
  induction docs generalizing m with
  | nil => cases hd
  | cons d0 ds ih =>
      rcases List.mem_cons.mp hd with rfl | h
      · exact foldl_dedup_mem_mono ds _ _ (source_mem_dedupInsert m (entryOf d))
      · exact ih _ h

lemma foldl_dedup_mem_entry (docs : List Document) (m : List SourceEntry) (a : SourceEntry)
    (h : a ∈ docs.foldl (fun m d => dedupInsert m (entryOf d)) m) :
    a ∈ m ∨ ∃ d ∈ docs, a = entryOf d := by
  induction docs generalizing m with
  | nil =>
      left
      exact h
  | cons d0 ds ih =>
      rcases ih _ h with h1 | ⟨d, hd, rfl⟩
      · rcases mem_dedupInsert _ _ _ h1 with h2 | rfl
        · left
          exact h2
        · right
          exact ⟨d0, List.mem_cons_self d0 ds, rfl⟩
      · right
        exact ⟨d, List.mem_cons_of_mem d0 hd, rfl⟩

/-- C3: on a successful QA invocation, the sources list returned by
`answer_question` is the deduplicated-by-source list of the retrieved
documents: its source paths are pairwise distinct, every retrieved
document contributes its source path, each entry comes from a retrieved
document with that path, and each entry preview is the first 250
characters of that chunk text with an ellipsis appended exactly when the
chunk text is longer than 250 characters. -/
theorem answer_question_sources_dedup (st : ChatbotState) (db : List Document)
    (hdb : st.vector_db = some db) (question answer_text : String)
    (source_documents : List Document)
    (qa_chain : String → Except String (String × List Document))
    (hqa : qa_chain ("Responda em português: " ++ question) =
      Except.ok (answer_text, source_documents)) :
    (answer_question st question qa_chain).1.2 = unique_sources source_documents ∧
    ((unique_sources source_documents).map SourceEntry.source).Nodup ∧
    (∀ d ∈ source_documents,
      docKey d ∈ (unique_sources source_documents).map SourceEntry.source) ∧
    (∀ a ∈ unique_sources source_documents, ∃ d ∈ source_documents,
      a.source = docKey d ∧
      a.content = d.page_content.take 250 ++
        (if 250 < d.page_content.length then "..." else "")) := by
  refine ⟨by simp [answer_question, hdb, hqa], ?_, ?_, ?_⟩
  · exact foldl_dedup_nodup source_documents [] (by simp)
  · intro d hd
    exact foldl_dedup_key_mem source_documents [] d hd
  · intro a ha
    rcases foldl_dedup_mem_entry source_documents [] a ha with h | ⟨d, hd, rfl⟩
    · cases h
    · exact ⟨d, hd, rfl, rfl⟩

set_option maxRecDepth 8192 in
/-- C3 witness: two retrieved chunks sharing a source path yield a single
source entry, whose preview carries no ellipsis for a short chunk. -/
theorem answer_question_sources_dedup_witness :
    (answer_question ⟨some []⟩ "What?"
        (fun _ => Except.ok ("ans", [⟨"alpha", some "a.pdf"⟩, ⟨"beta", some "a.pdf"⟩]))).1.2 =
      unique_sources [⟨"alpha", some "a.pdf"⟩, ⟨"beta", some "a.pdf"⟩] ∧
    ((unique_sources [⟨"alpha", some "a.pdf"⟩, ⟨"beta", some "a.pdf"⟩]).map
      SourceEntry.source).Nodup ∧
    unique_sources [⟨"alpha", some "a.pdf"⟩, ⟨"beta", some "a.pdf"⟩] =
      [⟨"a.pdf", "beta"⟩] := by
  have h := answer_question_sources_dedup ⟨some []⟩ [] rfl "What?" "ans"
    [⟨"alpha", some "a.pdf"⟩, ⟨"beta", some "a.pdf"⟩]
    (fun _ => Except.ok ("ans", [⟨"alpha", some "a.pdf"⟩, ⟨"beta", some "a.pdf"⟩])) rfl
  refine ⟨h.1, h.2.1, ?_⟩
  decide

end DocChat
